import Mathlib

/-!
Verification of the dev-Portfolio repository.

Part 1 embeds the utility layer of
`src/javascript/MEM_WIRE_TRANSFER/MEM_WIRE_TRANSFER.js` (the only source
file with executable code): `Utilities.validateRoutingNumber`,
`Utilities.formatPhoneNumber`, `Utilities.getAccountTypeInfo`,
`Utilities.isBusinessAccount`, the `CONFIG` tables they read, and
`FormValidator.validatePhoneField`.

Part 2 models the PDF Watcher Service pipeline.  Its Python sources
(`pdf_handler.py`, `xml_handler.py`, `email_utils.py`, `file_handler.py`)
are not part of the repository snapshot — only their README documentation
is — so those components are modelled from the specification, as marked
on each definition.

JavaScript strings are embedded as Lean `String`; a regular-expression
test against a fixed pattern is embedded as the equivalent decidable
predicate on the character list.
-/

namespace MemWire

/-- JS `parseInt` on a single decimal-digit character: its numeric value. -/
def digitVal (c : Char) : Nat := c.toNat - 48

/-- The ABA weight cycle of `Utilities.validateRoutingNumber`:
position `i` is weighted 3 when `i % 3 = 0`, 7 when `i % 3 = 1`, and 1
otherwise; `routingChecksum i ds` is the weighted sum of `ds` starting at
position `i`. -/
def routingChecksum : Nat → List Nat → Nat
  | _, [] => 0
  | i, d :: rest =>
      (if i % 3 = 0 then 3 * d else if i % 3 = 1 then 7 * d else d) +
        routingChecksum (i + 1) rest

/-- `CONFIG.VALIDATION.ROUTING_LENGTH` in MEM_WIRE_TRANSFER.js. -/
def ROUTING_LENGTH : Nat := 9

/-- `Utilities.validateRoutingNumber` from MEM_WIRE_TRANSFER.js:
reject falsy (empty) input, strip non-digits (`replace(/\D/g, '')`),
require exactly `ROUTING_LENGTH` digits, and accept when the weighted
checksum is nonzero and divisible by 10. -/
def validateRoutingNumber (routingNumber : String) : Bool :=
  if routingNumber = "" then false
  else if (routingNumber.data.filter Char.isDigit).length ≠ ROUTING_LENGTH then false
  else
    routingChecksum 0 ((routingNumber.data.filter Char.isDigit).map digitVal) ≠ 0 &&
      routingChecksum 0 ((routingNumber.data.filter Char.isDigit).map digitVal) % 10 = 0

/-- `Utilities.formatPhoneNumber` from MEM_WIRE_TRANSFER.js: falsy input
gives `''`; otherwise the non-digits are stripped and the result is
matched against `/^(\d{3})(\d{3})(\d{4})$/` — since the stripped string
is all digits, that regex matches exactly when 10 digits remain — and a
match is formatted as `(abc) def-ghij`, a non-match returns the input
unchanged. -/
def formatPhoneNumber (phoneNumber : String) : String :=
  if phoneNumber = "" then ""
  else if (phoneNumber.data.filter Char.isDigit).length = 10 then
    String.mk
      ('(' :: (phoneNumber.data.filter Char.isDigit).take 3 ++ ')' :: ' ' ::
        ((phoneNumber.data.filter Char.isDigit).drop 3).take 3 ++
          '-' :: (phoneNumber.data.filter Char.isDigit).drop 6)
  else phoneNumber

/-- JS `\s` character class, restricted to the ASCII whitespace
characters it contains. -/
def isJsWhitespace (c : Char) : Bool :=
  c = ' ' || c = '\t' || c = '\n' || c = '\x0b' || c = '\x0c' || c = '\r'

/-- `CONFIG.VALIDATION.PHONE_REGEX` = `/^\(\d{3}\)\s\d{3}-\d{4}$/` from
MEM_WIRE_TRANSFER.js, as a decidable test on the character list. -/
def phoneRegexTest (s : String) : Bool :=
  match s.data with
  | [c0, c1, c2, c3, c4, c5, c6, c7, c8, c9, c10, c11, c12, c13] =>
      c0 = '(' && c1.isDigit && c2.isDigit && c3.isDigit && c4 = ')' &&
        isJsWhitespace c5 && c6.isDigit && c7.isDigit && c8.isDigit &&
        c9 = '-' && c10.isDigit && c11.isDigit && c12.isDigit && c13.isDigit
  | _ => false

/-- `FormValidator.validatePhoneField`'s acceptance predicate from
MEM_WIRE_TRANSFER.js: `value => !!value && CONFIG.VALIDATION.PHONE_REGEX.test(value)`. -/
def validatePhoneFieldAccepts (value : String) : Bool :=
  value ≠ "" && phoneRegexTest value

/-- One entry of `CONFIG.BUSINESS_TYPE_LABELS`; the Individual default
returned by `getAccountTypeInfo` has no `entity` field, hence `Option`. -/
structure AccountTypeInfo where
  entity : Option String
  person : String
  address : String
  typeLabel : String
  deriving Repr, DecidableEq

/-- `CONFIG.BUSINESS_ACCOUNT_TYPES` from MEM_WIRE_TRANSFER.js. -/
def BUSINESS_ACCOUNT_TYPES : List String :=
  ["0005", "0006", "0007", "0010", "0011", "0012", "0013", "0014",
   "0015", "0016", "0017", "0018", "0019", "0020", "0021", "0022", "0023", "0024"]

/-- `CONFIG.BUSINESS_TYPE_LABELS` from MEM_WIRE_TRANSFER.js, as an
association list in declaration order. -/
def BUSINESS_TYPE_LABELS : List (String × AccountTypeInfo) :=
  [("0005", ⟨some "ESTATE NAME:", "AUTHORIZED SIGNER:", "Estate Address:", "Estate"⟩),
   ("0006", ⟨some "TRUST NAME:", "TRUSTEE:", "Trust Address:", "Revocable Trust"⟩),
   ("0007", ⟨some "TRUST NAME:", "TRUSTEE:", "Trust Address:", "Qualified Income Trust"⟩),
   ("0010", ⟨some "BUSINESS/CORPORATION NAME:", "Authorized Person:", "Business Address:", "Sole Proprietor (EIN)"⟩),
   ("0011", ⟨some "BUSINESS/CORPORATION NAME:", "Authorized Person:", "Business Address:", "Club/Organization/Association"⟩),
   ("0012", ⟨some "BUSINESS/CORPORATION NAME:", "Authorized Person:", "Business Address:", "LLC"⟩),
   ("0013", ⟨some "BUSINESS/CORPORATION NAME:", "Authorized Person:", "Business Address:", "Corporation"⟩),
   ("0014", ⟨some "BUSINESS/CORPORATION NAME:", "Authorized Person:", "Business Address:", "General Partnership"⟩),
   ("0015", ⟨some "BUSINESS/CORPORATION NAME:", "Authorized Person:", "Business Address:", "Limited Partnership"⟩),
   ("0016", ⟨some "BUSINESS/CORPORATION NAME:", "Authorized Person:", "Business Address:", "LLP"⟩),
   ("0017", ⟨some "BUSINESS/CORPORATION NAME:", "Authorized Person:", "Business Address:", "LLLP"⟩),
   ("0018", ⟨some "BUSINESS/CORPORATION NAME:", "Authorized Person:", "Business Address:", "Originator"⟩),
   ("0019", ⟨some "BUSINESS/CORPORATION NAME:", "Authorized Person:", "Business Address:", "Partnership"⟩),
   ("0020", ⟨some "BUSINESS/CORPORATION NAME:", "Authorized Person:", "Business Address:", "PLLC"⟩),
   ("0021", ⟨some "BUSINESS/CORPORATION NAME:", "Authorized Person:", "Business Address:", "PSC"⟩),
   ("0022", ⟨some "BUSINESS/CORPORATION NAME:", "Authorized Person:", "Business Address:", "Cooperative"⟩),
   ("0023", ⟨some "BUSINESS/CORPORATION NAME:", "Authorized Person:", "Business Address:", "Tenants-in-Common"⟩),
   ("0024", ⟨some "BUSINESS/CORPORATION NAME:", "Authorized Person:", "Business Address:", "Business Trust"⟩)]

/-- The default object returned by `Utilities.getAccountTypeInfo` for an
account type absent from `CONFIG.BUSINESS_TYPE_LABELS`. -/
def individualDefault : AccountTypeInfo :=
  ⟨none, "Member Name:", "Member Address:", "Individual"⟩

/-- The value a JavaScript property read on the
`CONFIG.BUSINESS_TYPE_LABELS` object literal can produce: an own data
property (a label entry), a truthy member inherited from
`Object.prototype` (a function, or the `Object.prototype` object itself
for `__proto__`), or `undefined`. -/
inductive JsValue where
  | infoVal (info : AccountTypeInfo)
  | inheritedMember (name : String)
  | jsUndefined
  deriving Repr, DecidableEq

/-- The enumerable-or-not members every plain object literal inherits
from `Object.prototype` in JavaScript; reading any of these on
`CONFIG.BUSINESS_TYPE_LABELS` yields a truthy value, never `undefined`. -/
def OBJECT_PROTOTYPE_MEMBERS : List String :=
  ["constructor", "hasOwnProperty", "isPrototypeOf", "propertyIsEnumerable",
   "toLocaleString", "toString", "valueOf", "__proto__",
   "__defineGetter__", "__defineSetter__", "__lookupGetter__", "__lookupSetter__"]

/-- The JS bracket access `CONFIG.BUSINESS_TYPE_LABELS[accountType]`:
an own key wins, otherwise the prototype chain is consulted, otherwise
the read is `undefined`. -/
def jsIndexAccess (accountType : String) : JsValue :=
  match BUSINESS_TYPE_LABELS.lookup accountType with
  | some info => .infoVal info
  | none =>
      if OBJECT_PROTOTYPE_MEMBERS.contains accountType then
        .inheritedMember accountType
      else .jsUndefined

/-- `Utilities.getAccountTypeInfo` from MEM_WIRE_TRANSFER.js:
`CONFIG.BUSINESS_TYPE_LABELS[accountType] || ...Individual default...`.
The `||` keeps the left operand whenever it is truthy — which includes a
member inherited from `Object.prototype` — and substitutes the
Individual default only for the falsy `undefined`. -/
def getAccountTypeInfo (accountType : String) : JsValue :=
  match jsIndexAccess accountType with
  | .jsUndefined => .infoVal individualDefault
  | v => v

/-- `Utilities.isBusinessAccount` from MEM_WIRE_TRANSFER.js:
`CONFIG.BUSINESS_ACCOUNT_TYPES.includes(accountType)`. -/
def isBusinessAccount (accountType : String) : Bool :=
  BUSINESS_ACCOUNT_TYPES.contains accountType

end MemWire

namespace MemWire

/-- Destructuring helper: a list of length 9 is a nine-element literal. -/
theorem exists_list_nine {α : Type _} (l : List α) (h : l.length = 9) :
    ∃ c1 c2 c3 c4 c5 c6 c7 c8 c9, l = [c1, c2, c3, c4, c5, c6, c7, c8, c9] := by
  rcases l with _ | ⟨c1, l⟩; · simp at h
  rcases l with _ | ⟨c2, l⟩; · simp at h
  rcases l with _ | ⟨c3, l⟩; · simp at h
  rcases l with _ | ⟨c4, l⟩; · simp at h
  rcases l with _ | ⟨c5, l⟩; · simp at h
  rcases l with _ | ⟨c6, l⟩; · simp at h
  rcases l with _ | ⟨c7, l⟩; · simp at h
  rcases l with _ | ⟨c8, l⟩; · simp at h
  rcases l with _ | ⟨c9, l⟩; · simp at h
  rcases l with _ | ⟨c10, l⟩
  · exact ⟨c1, c2, c3, c4, c5, c6, c7, c8, c9, rfl⟩
  · simp at h

/-- Destructuring helper: a list of length 10 is a ten-element literal. -/
theorem exists_list_ten {α : Type _} (l : List α) (h : l.length = 10) :
    ∃ c1 c2 c3 c4 c5 c6 c7 c8 c9 c10,
      l = [c1, c2, c3, c4, c5, c6, c7, c8, c9, c10] := by
  rcases l with _ | ⟨c1, l⟩; · simp at h
  obtain ⟨c2, c3, c4, c5, c6, c7, c8, c9, c10, hl⟩ := exists_list_nine l (by simpa using h)
  exact ⟨c1, c2, c3, c4, c5, c6, c7, c8, c9, c10, by rw [hl]⟩

/-- Evaluating the weight cycle on a nine-digit list. -/
theorem routingChecksum_nine (x0 x1 x2 x3 x4 x5 x6 x7 x8 : Nat) :
    routingChecksum 0 [x0, x1, x2, x3, x4, x5, x6, x7, x8] =
      3*x0 + 7*x1 + x2 + 3*x3 + 7*x4 + x5 + 3*x6 + 7*x7 + x8 := by
  norm_num [routingChecksum]
  ring

end MemWire

/-- C8: `Utilities.validateRoutingNumber(s)` returns true if and only if
`s`, after removing all non-digit characters, consists of exactly 9
digits `d0..d8` whose weighted checksum
`3*d0 + 7*d1 + d2 + 3*d3 + 7*d4 + d5 + 3*d6 + 7*d7 + d8` is nonzero and
divisible by 10; for empty input it returns false. -/
theorem claim_C8_validateRoutingNumber :
    (∀ s : String,
      MemWire.validateRoutingNumber s = true ↔
        ∃ d0 d1 d2 d3 d4 d5 d6 d7 d8 : Nat,
          (s.data.filter Char.isDigit).map MemWire.digitVal =
              [d0, d1, d2, d3, d4, d5, d6, d7, d8] ∧
            3*d0 + 7*d1 + d2 + 3*d3 + 7*d4 + d5 + 3*d6 + 7*d7 + d8 ≠ 0 ∧
            (3*d0 + 7*d1 + d2 + 3*d3 + 7*d4 + d5 + 3*d6 + 7*d7 + d8) % 10 = 0) ∧
    MemWire.validateRoutingNumber "" = false := by
  refine ⟨fun s => ?_, by decide⟩
  by_cases hs : s = ""
  · subst hs
    constructor
    · intro h; exact absurd h (by decide)
    · rintro ⟨d0, d1, d2, d3, d4, d5, d6, d7, d8, heq, -, -⟩
      simp at heq
  · rw [MemWire.validateRoutingNumber, if_neg hs]
    by_cases hlen : (s.data.filter Char.isDigit).length = MemWire.ROUTING_LENGTH
    · rw [if_neg (fun h => h hlen)]
      obtain ⟨c1, c2, c3, c4, c5, c6, c7, c8, c9, hl⟩ :=
        MemWire.exists_list_nine (s.data.filter Char.isDigit) hlen
      rw [hl]
      simp only [List.map_cons, List.map_nil, MemWire.routingChecksum_nine,
        ne_eq, Bool.and_eq_true, decide_eq_true_eq]
      constructor
      · intro h
        exact ⟨MemWire.digitVal c1, MemWire.digitVal c2, MemWire.digitVal c3,
          MemWire.digitVal c4, MemWire.digitVal c5, MemWire.digitVal c6,
          MemWire.digitVal c7, MemWire.digitVal c8, MemWire.digitVal c9,
          rfl, h.1, h.2⟩
      · rintro ⟨d0, d1, d2, d3, d4, d5, d6, d7, d8, heq, h1, h2⟩
        simp only [List.cons.injEq, and_true] at heq
        obtain ⟨e0, e1, e2, e3, e4, e5, e6, e7, e8⟩ := heq
        subst e0; subst e1; subst e2; subst e3; subst e4
        subst e5; subst e6; subst e7; subst e8
        exact ⟨h1, h2⟩
    · rw [if_pos hlen]
      constructor
      · intro h; exact absurd h (by decide)
      · rintro ⟨d0, d1, d2, d3, d4, d5, d6, d7, d8, heq, -, -⟩
        have : (s.data.filter Char.isDigit).length = 9 := by
          have := congrArg List.length heq
          simpa using this
        exact absurd this hlen

/-- C8 witness: `claim_C8_validateRoutingNumber` instantiated on the
valid routing number 021000021 (checksum 30). -/
theorem claim_C8_validateRoutingNumber_witness :
    MemWire.validateRoutingNumber "021000021" = true :=
  (claim_C8_validateRoutingNumber.1 "021000021").mpr
    ⟨0, 2, 1, 0, 0, 0, 0, 2, 1, by decide, by decide, by decide⟩

/-- C9: for input whose digit-stripped form has exactly 10 digits,
`Utilities.formatPhoneNumber` returns `(ddd) ddd-dddd` built from those
digits, which satisfies `CONFIG.VALIDATION.PHONE_REGEX` and is accepted
by `FormValidator.validatePhoneField`; any other non-empty input is
returned unchanged; empty input returns the empty string. -/
theorem claim_C9_formatPhoneNumber :
    (∀ s : String, (s.data.filter Char.isDigit).length = 10 →
      (∃ a b c d e f g h i j : Char,
          s.data.filter Char.isDigit = [a, b, c, d, e, f, g, h, i, j] ∧
            MemWire.formatPhoneNumber s =
              String.mk ['(', a, b, c, ')', ' ', d, e, f, '-', g, h, i, j]) ∧
        MemWire.phoneRegexTest (MemWire.formatPhoneNumber s) = true ∧
        MemWire.validatePhoneFieldAccepts (MemWire.formatPhoneNumber s) = true) ∧
    (∀ s : String, s ≠ "" → (s.data.filter Char.isDigit).length ≠ 10 →
      MemWire.formatPhoneNumber s = s) ∧
    MemWire.formatPhoneNumber "" = "" := by
  refine ⟨fun s h10 => ?_, fun s hs hlen => ?_, by decide⟩
  · have hs : s ≠ "" := by
      rintro rfl; simp at h10
    obtain ⟨a, b, c, d, e, f, g, h, i, j, hl⟩ :=
      MemWire.exists_list_ten (s.data.filter Char.isDigit) h10
    have hall : ∀ x ∈ [a, b, c, d, e, f, g, h, i, j], x.isDigit := by
      rw [← hl]; intro x hx; exact (List.mem_filter.mp hx).2
    have hfmt : MemWire.formatPhoneNumber s =
        String.mk ['(', a, b, c, ')', ' ', d, e, f, '-', g, h, i, j] := by
      rw [MemWire.formatPhoneNumber, if_neg hs, hl]
      rfl
    refine ⟨⟨a, b, c, d, e, f, g, h, i, j, hl, hfmt⟩, ?_, ?_⟩
    · rw [hfmt]
      simp only [MemWire.phoneRegexTest, MemWire.isJsWhitespace]
      have ha := hall a (by simp); have hb := hall b (by simp)
      have hc := hall c (by simp); have hd := hall d (by simp)
      have he := hall e (by simp); have hf := hall f (by simp)
      have hg := hall g (by simp); have hh := hall h (by simp)
      have hi := hall i (by simp); have hj := hall j (by simp)
      simp [ha, hb, hc, hd, he, hf, hg, hh, hi, hj]
    · rw [hfmt]
      rw [MemWire.validatePhoneFieldAccepts]
      have hne : String.mk ['(', a, b, c, ')', ' ', d, e, f, '-', g, h, i, j] ≠ "" := by
        intro hcontra
        have : ('(' :: [a, b, c, ')', ' ', d, e, f, '-', g, h, i, j] : List Char) = [] :=
          congrArg String.data hcontra
        simp at this
      rw [← hfmt] at hne ⊢
      rw [hfmt]
      simp only [MemWire.phoneRegexTest, MemWire.isJsWhitespace]
      have ha := hall a (by simp); have hb := hall b (by simp)
      have hc := hall c (by simp); have hd := hall d (by simp)
      have he := hall e (by simp); have hf := hall f (by simp)
      have hg := hall g (by simp); have hh := hall h (by simp)
      have hi := hall i (by simp); have hj := hall j (by simp)
      rw [hfmt] at hne
      simp [ha, hb, hc, hd, he, hf, hg, hh, hi, hj, hne]
  · rw [MemWire.formatPhoneNumber, if_neg hs, if_neg hlen]

/-- C9 witness: concrete evaluations discharging the hypotheses of
`claim_C9_formatPhoneNumber`. -/
theorem claim_C9_formatPhoneNumber_witness :
    MemWire.validatePhoneFieldAccepts (MemWire.formatPhoneNumber "555-123-4567") = true ∧
    MemWire.formatPhoneNumber "12345" = "12345" :=
  ⟨(claim_C9_formatPhoneNumber.1 "555-123-4567" (by decide)).2.2,
   claim_C9_formatPhoneNumber.2.1 "12345" (by decide) (by decide)⟩

namespace MemWire

/-- Association-list bridge: a lookup succeeds exactly when the key is
among the mapped-out keys. -/
theorem lookup_isSome_eq_contains {β : Type _} (l : List (String × β)) (t : String) :
    (l.lookup t).isSome = (l.map Prod.fst).contains t := by
  induction l with
  | nil => rfl
  | cons hd tl ih =>
      rcases hd with ⟨k, v⟩
      simp only [List.lookup, List.map_cons, List.contains_cons]
      cases h : (t == k) with
      | true => simp [h]
      | false => simp [h, ih]

end MemWire

/-- C10 counterexample: the account type toString is none of the 18
business codes, yet `Utilities.getAccountTypeInfo` does not return the
Individual default for it — the JS property read finds the inherited
truthy `Object.prototype.toString`, so the `||` fallback never runs.
This refutes the claim's "Individual default for every other t". -/
theorem claim_C10_accountTypeTables_counterexample :
    MemWire.isBusinessAccount "toString" = false ∧
    MemWire.getAccountTypeInfo "toString" ≠
      MemWire.JsValue.infoVal MemWire.individualDefault := by
  refine ⟨by decide, ?_⟩
  intro h
  exact absurd h (by decide)

/-- C10 (amended): the 18 business account codes of
`CONFIG.BUSINESS_ACCOUNT_TYPES` coincide with the key set of
`CONFIG.BUSINESS_TYPE_LABELS`; `Utilities.isBusinessAccount` is true
exactly on those codes; `Utilities.getAccountTypeInfo` returns the
matching label entry on them, and on every other account type it
returns the Individual default — except when the account type names an
inherited `Object.prototype` member, where the truthy inherited member
is returned instead. -/
theorem claim_C10_accountTypeTables :
    MemWire.BUSINESS_TYPE_LABELS.map Prod.fst = MemWire.BUSINESS_ACCOUNT_TYPES ∧
    (∀ t : String, MemWire.isBusinessAccount t = true ↔
        (MemWire.BUSINESS_TYPE_LABELS.lookup t).isSome = true) ∧
    (∀ t info, MemWire.BUSINESS_TYPE_LABELS.lookup t = some info →
        MemWire.getAccountTypeInfo t = .infoVal info) ∧
    (∀ t : String, MemWire.isBusinessAccount t = false →
        MemWire.OBJECT_PROTOTYPE_MEMBERS.contains t = false →
        MemWire.getAccountTypeInfo t = .infoVal MemWire.individualDefault) ∧
    (∀ t : String, MemWire.isBusinessAccount t = false →
        MemWire.OBJECT_PROTOTYPE_MEMBERS.contains t = true →
        MemWire.getAccountTypeInfo t = .inheritedMember t) := by
  have hkeys : MemWire.BUSINESS_TYPE_LABELS.map Prod.fst =
      MemWire.BUSINESS_ACCOUNT_TYPES := rfl
  have hnone : ∀ t : String, MemWire.isBusinessAccount t = false →
      MemWire.BUSINESS_TYPE_LABELS.lookup t = none := by
    intro t h
    have hfalse : (MemWire.BUSINESS_TYPE_LABELS.lookup t).isSome = false := by
      rw [MemWire.lookup_isSome_eq_contains, hkeys]
      exact h
    exact Option.not_isSome_iff_eq_none.mp (by simp [hfalse])
  refine ⟨hkeys, fun t => ?_, fun t info h => ?_, fun t h hp => ?_, fun t h hp => ?_⟩
  · rw [MemWire.isBusinessAccount, ← hkeys, ← MemWire.lookup_isSome_eq_contains]
  · rw [MemWire.getAccountTypeInfo, MemWire.jsIndexAccess, h]
  · rw [MemWire.getAccountTypeInfo, MemWire.jsIndexAccess, hnone t h, hp]
    rfl
  · rw [MemWire.getAccountTypeInfo, MemWire.jsIndexAccess, hnone t h, hp]
    rfl

/-- C10 witness: `claim_C10_accountTypeTables` instantiated on the
business code 0006, the ordinary non-business code 1234, and the
prototype-member name toString. -/
theorem claim_C10_accountTypeTables_witness :
    MemWire.getAccountTypeInfo "0006" =
      .infoVal ⟨some "TRUST NAME:", "TRUSTEE:", "Trust Address:", "Revocable Trust"⟩ ∧
    MemWire.getAccountTypeInfo "1234" = .infoVal MemWire.individualDefault ∧
    MemWire.getAccountTypeInfo "toString" = .inheritedMember "toString" :=
  ⟨claim_C10_accountTypeTables.2.2.1 "0006" _ rfl,
   claim_C10_accountTypeTables.2.2.2.1 "1234" (by decide) (by decide),
   claim_C10_accountTypeTables.2.2.2.2 "toString" (by decide) (by decide)⟩

example : MemWire.validateRoutingNumber "021000021" = true := by decide
example : MemWire.validateRoutingNumber "123456789" = false := by decide
example : MemWire.formatPhoneNumber "555-123-4567" = "(555) 123-4567" := by decide
example : MemWire.formatPhoneNumber "12345" = "12345" := by decide
example : MemWire.phoneRegexTest "(555) 123-4567" = true := by decide

namespace PdfWatcher

/-! The PDF Watcher Service's Python sources (`pdf_handler.py`,
`xml_handler.py`, `email_utils.py`, `file_handler.py`,
`pdf_watcher_service.py`) are not in the repository snapshot — only the
service README is — so every definition in this namespace is modelled
from the specification, as its doc comment records. -/

/-- A resolved metadata record: canonical field name to string value. -/
abbrev MetadataRecord := List (String × String)

/-- Modelled from the spec: the character class §4.7 allows inside a
name part — letters, digits, hyphen (missing `email_utils.py`). -/
def allowedNameChar (c : Char) : Bool := c.isAlpha || c.isDigit || c = '-'

/-- A name part is in the allowed class when all its characters are. -/
def partAllowed (p : List Char) : Bool := p.all allowedNameChar

/-- Keep only letters and digits of a name part. -/
def stripToAlnum (p : List Char) : List Char :=
  p.filter (fun c => c.isAlpha || c.isDigit)

/-- Split a character list on spaces (separator model of §4.7). -/
def splitOnSpace : List Char → List (List Char)
  | [] => [[]]
  | c :: rest =>
      if c = ' ' then [] :: splitOnSpace rest
      else
        match splitOnSpace rest with
        | [] => [[c]]
        | p :: r => (c :: p) :: r

/-- Modelled from the spec: joining the name parts of §4.7/§8 (missing
`email_utils.py`).  A dot is retained between two adjacent parts only
when both consist solely of allowed characters (letters/digits/hyphen);
a part containing a character outside that class — an apostrophe, say —
loses its separating dot, which reproduces the pinned fixtures of §4.7
and §8: Jane Smith-Wilson → JANE.SMITHWILSON, Jane O.Brien-with-the-dot-
written-as-apostrophe → JANEOBRIEN. -/
def joinNameParts : List (List Char) → List Char
  | [] => []
  | [p] => stripToAlnum p
  | p :: q :: rest =>
      stripToAlnum p ++
        (if partAllowed p && partAllowed q then ['.'] else []) ++
        joinNameParts (q :: rest)

/-- Modelled from the spec: RecipientResolver's local-part normalization
(§4.7; missing `email_utils.py`): uppercase, split on separators, strip
disallowed characters, join with dots per `joinNameParts`. -/
def normalizeLocalPart (name : String) : String :=
  String.mk (joinNameParts (splitOnSpace (name.data.map Char.toUpper)))

/-- Modelled from the spec: RecipientResolver (§4.7; missing
`email_utils.py`): when the resolved metadata carries a `user_name`, the
CC address is the normalized local part joined with the configured email
domain; absent `user_name` yields no CC. -/
def synthesizeCC (md : MetadataRecord) (domain : String) : Option String :=
  match md.lookup "user_name" with
  | none => none
  | some n => some (normalizeLocalPart n ++ "@" ++ domain)

/-- Modelled from the spec: a Template (§3) — match pattern (embedded as
its decidable test on the filename), ordered recipients, subject and
body formats (missing `pdf_handler.py`). -/
structure Template where
  pattern : String → Bool
  recipients : List String
  subjectFormat : String
  bodyFormat : String

/-- Modelled from the spec: TemplateMatcher (§4.6; missing
`pdf_handler.py`) — templates are tried in declaration order against the
filename and the first whose pattern matches is selected. -/
def matchTemplate (ts : List Template) (filename : String) : Option Template :=
  ts.find? (fun t => t.pattern filename)

/-- Outcome of the template-matching stage. -/
inductive MatchOutcome where
  | matched (t : Template)
  | droppedUnmatched

/-- Modelled from the spec: the matching stage feeding the dispatcher
(§4.6, §8; missing `pdf_handler.py`) — a matched Job produces one
notification email, an unmatched Job is dropped and produces none. -/
def matchAndDispatch (ts : List Template) (filename : String) : MatchOutcome × Nat :=
  match ts.find? (fun t => t.pattern filename) with
  | some t => (.matched t, 1)
  | none => (.droppedUnmatched, 0)

end PdfWatcher

namespace PdfWatcher

/-- `List.find?` returns the first element satisfying the predicate:
everything before the hit fails the predicate. -/
theorem find?_first_match {α : Type _} (p : α → Bool) :
    ∀ (l : List α) (b : α), l.find? p = some b →
      p b = true ∧ ∃ pre post, l = pre ++ b :: post ∧ ∀ u ∈ pre, p u = false := by
  intro l
  induction l with
  | nil => intro b h; simp at h
  | cons hd tl ih =>
      intro b h
      cases hp : p hd with
      | true =>
          rw [List.find?_cons_of_pos _ hp] at h
          cases h
          exact ⟨hp, [], tl, rfl, by simp⟩
      | false =>
          rw [List.find?_cons_of_neg _ (by simp [hp])] at h
          obtain ⟨hb, pre, post, hl, hpre⟩ := ih b h
          refine ⟨hb, hd :: pre, post, by rw [hl]; rfl, ?_⟩
          intro u hu
          rcases List.mem_cons.mp hu with rfl | hu
          · exact hp
          · exact hpre u hu

end PdfWatcher

/-- C1: whenever the resolved metadata contains a `user_name`,
RecipientResolver synthesizes the CC as the normalized local part joined
with the configured domain, and the normalization reproduces the pinned
fixtures: Jane Smith-Wilson with domain DOMAIN gives
JANE.SMITHWILSON@DOMAIN, Jane O(apostrophe)Brien with domain EXAMPLE.COM
gives JANEOBRIEN@EXAMPLE.COM. -/
theorem claim_C1_recipientSynthesis :
    (∀ (md : PdfWatcher.MetadataRecord) (domain n : String),
        md.lookup "user_name" = some n →
        PdfWatcher.synthesizeCC md domain =
          some (PdfWatcher.normalizeLocalPart n ++ "@" ++ domain)) ∧
    PdfWatcher.synthesizeCC [("user_name", "Jane Smith-Wilson")] "DOMAIN" =
      some "JANE.SMITHWILSON@DOMAIN" ∧
    PdfWatcher.synthesizeCC [("user_name", "Jane O\u0027Brien")] "EXAMPLE.COM" =
      some "JANEOBRIEN@EXAMPLE.COM" := by
  refine ⟨fun md domain n h => ?_, by decide, by decide⟩
  rw [PdfWatcher.synthesizeCC, h]

/-- C1 witness: `claim_C1_recipientSynthesis` applied to a record
carrying user_name John Doe with domain COMPANY.COM. -/
theorem claim_C1_recipientSynthesis_witness :
    PdfWatcher.synthesizeCC [("user_name", "John Doe")] "COMPANY.COM" =
      some "JOHN.DOE@COMPANY.COM" :=
  (claim_C1_recipientSynthesis.1 [("user_name", "John Doe")] "COMPANY.COM"
      "John Doe" rfl).trans (by decide)

/-- C2: template matching tests the configured templates in declaration
order and selects exactly the first whose pattern matches the filename;
a Job matching no template is dropped as DroppedUnmatched and sends no
email. -/
theorem claim_C2_firstMatchWins :
    (∀ (ts : List PdfWatcher.Template) (filename : String) (t : PdfWatcher.Template),
        PdfWatcher.matchTemplate ts filename = some t →
        t.pattern filename = true ∧
          ∃ pre post, ts = pre ++ t :: post ∧
            ∀ u ∈ pre, u.pattern filename = false) ∧
    (∀ (ts : List PdfWatcher.Template) (filename : String),
        (∀ t ∈ ts, t.pattern filename = false) →
        (PdfWatcher.matchAndDispatch ts filename).1 = .droppedUnmatched ∧
          (PdfWatcher.matchAndDispatch ts filename).2 = 0) := by
  constructor
  · intro ts filename t h
    have h' : ts.find? (fun u => u.pattern filename) = some t := h
    exact PdfWatcher.find?_first_match (fun u => u.pattern filename) ts t h'
  · intro ts filename h
    have hnone : ts.find? (fun u => u.pattern filename) = none := by
      rw [List.find?_eq_none]
      intro t ht
      simp [h t ht]
    constructor <;> simp [PdfWatcher.matchAndDispatch, hnone]

/-- C2 witness: `claim_C2_firstMatchWins` applied to a one-template
configuration, on a matching and on a non-matching filename. -/
theorem claim_C2_firstMatchWins_witness :
    ((⟨fun s => s == "wire.pdf", [], "s", "b"⟩ : PdfWatcher.Template).pattern
        "wire.pdf" = true) ∧
    (PdfWatcher.matchAndDispatch
        [⟨fun s => s == "wire.pdf", [], "s", "b"⟩] "other.pdf").2 = 0 :=
  ⟨(claim_C2_firstMatchWins.1 [⟨fun s => s == "wire.pdf", [], "s", "b"⟩]
      "wire.pdf" ⟨fun s => s == "wire.pdf", [], "s", "b"⟩ rfl).1,
   (claim_C2_firstMatchWins.2 [⟨fun s => s == "wire.pdf", [], "s", "b"⟩]
      "other.pdf"
      (fun t ht => by
        simp only [List.mem_singleton] at ht
        subst ht
        decide)).2⟩

namespace PdfWatcher

/-- Modelled from the spec: a parsed sidecar XML element as the resolver
inspects it (missing `xml_handler.py`) — tag, attributes, element text. -/
structure XmlNode where
  tag : String
  attrs : List (String × String)
  text : String

/-- Modelled from the spec: a parsed sidecar document; the four
strategies of §4.5 all scan the direct children of the root. -/
structure XmlDoc where
  rootTag : String
  children : List XmlNode

/-- Modelled from the spec: the fixed case-insensitive user-name alias
table of §4.5 and the README field-mapping list (missing
`xml_handler.py`). -/
def userNameAliases : List String :=
  ["USER NAME", "USER_NAME", "UserName", "User Name", "USERNAME",
   "user_name", "username", "User", "SUBMITTER", "Submitter", "submitter",
   "SUBMITTED_BY", "SubmittedBy", "Submitted By"]

/-- Lowercase a string character by character. -/
def lowerStr (s : String) : String := String.mk (s.data.map Char.toLower)

/-- A key is recognized when it equals an alias up to case. -/
def isUserNameAlias (k : String) : Bool :=
  (userNameAliases.map lowerStr).contains (lowerStr k)

/-- A recognized key contributes the canonical `user_name` entry. -/
def canonicalEntry (k v : String) : Option (String × String) :=
  if isUserNameAlias k then some ("user_name", v) else none

/-- Modelled from the spec: strategy (a) of §4.5 — attribute-style index
elements `name`/`value` (missing `xml_handler.py`). -/
def strategyIndex (d : XmlDoc) : MetadataRecord :=
  d.children.filterMap fun n =>
    if n.tag = "index" then
      match n.attrs.lookup "name", n.attrs.lookup "value" with
      | some k, some v => canonicalEntry k v
      | _, _ => none
    else none

/-- Modelled from the spec: strategy (b) of §4.5 — named field elements
with the element text as value (missing `xml_handler.py`). -/
def strategyField (d : XmlDoc) : MetadataRecord :=
  d.children.filterMap fun n =>
    if n.tag = "field" then
      match n.attrs.lookup "name" with
      | some k => canonicalEntry k n.text
      | none => none
    else none

/-- Modelled from the spec: strategy (c) of §4.5 — named property
elements (missing `xml_handler.py`). -/
def strategyProperty (d : XmlDoc) : MetadataRecord :=
  d.children.filterMap fun n =>
    if n.tag = "property" then
      match n.attrs.lookup "name", n.attrs.lookup "value" with
      | some k, some v => canonicalEntry k v
      | _, _ => none
    else none

/-- Modelled from the spec: strategy (d) of §4.5 — direct child elements
named after the canonical key (missing `xml_handler.py`). -/
def strategyDirect (d : XmlDoc) : MetadataRecord :=
  d.children.filterMap fun n => canonicalEntry n.tag n.text

/-- The first strategy producing at least one recognized key wins. -/
def firstNonEmptyRecord : List MetadataRecord → MetadataRecord
  | [] => []
  | r :: rest => if r.isEmpty then firstNonEmptyRecord rest else r

/-- Modelled from the spec: MetadataResolver (§4.5; missing
`xml_handler.py`).  The sidecar state is `none` when no sidecar file
exists and `some none` when the sidecar exists but is malformed XML;
both degrade softly to the empty record.  A parsed document is run
through the four strategies in fixed order. -/
def resolveMetadata : Option (Option XmlDoc) → MetadataRecord
  | none => []
  | some none => []
  | some (some d) =>
      firstNonEmptyRecord
        [strategyIndex d, strategyField d, strategyProperty d, strategyDirect d]

/-- A sidecar using only the attribute-style index structure. -/
def indexSidecar (k v : String) : XmlDoc :=
  ⟨"document", [⟨"index", [("name", k), ("value", v)], ""⟩]⟩

/-- A sidecar using only the named-field structure. -/
def fieldSidecar (k v : String) : XmlDoc :=
  ⟨"document", [⟨"field", [("name", k)], v⟩]⟩

/-- A sidecar using only the named-property structure. -/
def propertySidecar (k v : String) : XmlDoc :=
  ⟨"document", [⟨"property", [("name", k), ("value", v)], ""⟩]⟩

/-- A sidecar using only a direct child element named after the key. -/
def directSidecar (k v : String) : XmlDoc :=
  ⟨"document", [⟨k, [], v⟩]⟩

end PdfWatcher

/-- C3: a sidecar using any of the four supported XML structures with a
recognized user-name alias resolves to a record carrying `user_name`
with that value; a malformed sidecar (`some none`) or an absent sidecar
(`none`) resolves to the empty record with no error. -/
theorem claim_C3_metadataResolver :
    (∀ k v : String, PdfWatcher.isUserNameAlias k = true →
        PdfWatcher.resolveMetadata (some (some (PdfWatcher.indexSidecar k v))) =
            [("user_name", v)] ∧
          PdfWatcher.resolveMetadata (some (some (PdfWatcher.fieldSidecar k v))) =
            [("user_name", v)] ∧
          PdfWatcher.resolveMetadata (some (some (PdfWatcher.propertySidecar k v))) =
            [("user_name", v)] ∧
          PdfWatcher.resolveMetadata (some (some (PdfWatcher.directSidecar k v))) =
            [("user_name", v)]) ∧
    PdfWatcher.resolveMetadata (some none) = [] ∧
    PdfWatcher.resolveMetadata none = [] := by
  refine ⟨fun k v h => ⟨?_, ?_, ?_, ?_⟩, rfl, rfl⟩ <;>
    simp [PdfWatcher.resolveMetadata, PdfWatcher.firstNonEmptyRecord,
      PdfWatcher.strategyIndex, PdfWatcher.strategyField,
      PdfWatcher.strategyProperty, PdfWatcher.strategyDirect,
      PdfWatcher.indexSidecar, PdfWatcher.fieldSidecar,
      PdfWatcher.propertySidecar, PdfWatcher.directSidecar,
      PdfWatcher.canonicalEntry, List.lookup, h]

/-- C3 witness: `claim_C3_metadataResolver` applied to the alias
USER NAME carried in an attribute-style index element. -/
theorem claim_C3_metadataResolver_witness :
    PdfWatcher.resolveMetadata
        (some (some (PdfWatcher.indexSidecar "USER NAME" "John Doe"))) =
      [("user_name", "John Doe")] :=
  (claim_C3_metadataResolver.1 "USER NAME" "John Doe" (by decide)).1

namespace PdfWatcher

/-- The Job states of §4.3 that the dispatcher and watcher models use. -/
inductive JobState where
  | detected
  | staged
  | resolved
  | matched
  | dispatched
  | cleaned
  | droppedDuplicate
  | droppedUnmatched
  | failedTerminal
  deriving DecidableEq, Repr

/-- Modelled from the spec: the default attachment size cap of §4.8
(10 MB; missing `email_utils.py`). -/
def DEFAULT_ATTACHMENT_CAP : Nat := 10 * 1024 * 1024

/-- Modelled from the spec: the doubling backoff policy of §4.8 — delay
before retry `attempt` is the base delay doubled each attempt (missing
`email_utils.py`). -/
def backoffDelay (base attempt : Nat) : Nat := base * 2 ^ attempt

/-- Modelled from the spec: the bounded retry loop of §4.8 (missing
`email_utils.py`).  `smtpOk` gives each 1-based attempt's outcome;
`retryLoop smtpOk first budget` returns (attempts actually made,
success). -/
def retryLoop (smtpOk : Nat → Bool) (first : Nat) : Nat → Nat × Bool
  | 0 => (0, false)
  | budget + 1 =>
      if smtpOk first then (1, true)
      else
        ((retryLoop smtpOk (first + 1) budget).1 + 1,
          (retryLoop smtpOk (first + 1) budget).2)

/-- Result of one dispatch: final Job state, number of envelopes (with
attachment) actually handed to the SMTP client, attempts used, operator
error emails routed. -/
structure DispatchResult where
  state : JobState
  attachmentSends : Nat
  attemptsUsed : Nat
  operatorEmails : Nat
  deriving DecidableEq, Repr

/-- Modelled from the spec: NotificationDispatcher (§4.8; missing
`email_utils.py`).  An attachment over the cap is rejected before any
SMTP contact: `FailedTerminal`, no partial send, one operator error
message.  Otherwise the send is retried under the bounded retry loop;
success dispatches exactly one email, exhaustion is `FailedTerminal`
plus one operator error message. -/
def dispatch (cap attachmentSize : Nat) (smtpOk : Nat → Bool)
    (maxAttempts : Nat) : DispatchResult :=
  if attachmentSize > cap then
    ⟨.failedTerminal, 0, 0, 1⟩
  else
    if (retryLoop smtpOk 1 maxAttempts).2 then
      ⟨.dispatched, 1, (retryLoop smtpOk 1 maxAttempts).1, 0⟩
    else
      ⟨.failedTerminal, 0, (retryLoop smtpOk 1 maxAttempts).1, 1⟩

end PdfWatcher

/-- C4: an attachment exceeding the configured cap never reaches the
SMTP client — the dispatcher hands over zero envelopes, makes zero send
attempts, marks the Job FailedTerminal, and routes exactly one operator
error message. -/
theorem claim_C4_attachmentCap :
    ∀ (cap size : Nat) (smtpOk : Nat → Bool) (maxAttempts : Nat),
      size > cap →
      PdfWatcher.dispatch cap size smtpOk maxAttempts =
        ⟨.failedTerminal, 0, 0, 1⟩ := by
  intro cap size smtpOk maxAttempts h
  rw [PdfWatcher.dispatch, if_pos h]

/-- C4 witness: `claim_C4_attachmentCap` on an 11-byte attachment over a
10-byte cap. -/
theorem claim_C4_attachmentCap_witness :
    PdfWatcher.dispatch 10 11 (fun _ => true) 3 = ⟨.failedTerminal, 0, 0, 1⟩ :=
  claim_C4_attachmentCap 10 11 (fun _ => true) 3 (by decide)

/-- C5: with three attempts configured, two failures followed by a
success send the email exactly once with three observed attempts; three
failures end FailedTerminal with zero sends and exactly one operator
error email; the backoff delay doubles between consecutive attempts. -/
theorem claim_C5_retryBackoff :
    (∀ (smtpOk : Nat → Bool) (cap size : Nat),
        smtpOk 1 = false → smtpOk 2 = false → smtpOk 3 = true → size ≤ cap →
        PdfWatcher.dispatch cap size smtpOk 3 = ⟨.dispatched, 1, 3, 0⟩) ∧
    (∀ (smtpOk : Nat → Bool) (cap size : Nat),
        smtpOk 1 = false → smtpOk 2 = false → smtpOk 3 = false → size ≤ cap →
        PdfWatcher.dispatch cap size smtpOk 3 = ⟨.failedTerminal, 0, 3, 1⟩) ∧
    (∀ base k, PdfWatcher.backoffDelay base (k + 1) =
        2 * PdfWatcher.backoffDelay base k) := by
  refine ⟨fun smtpOk cap size h1 h2 h3 hsize => ?_,
    fun smtpOk cap size h1 h2 h3 hsize => ?_, fun base k => ?_⟩
  · rw [PdfWatcher.dispatch, if_neg (Nat.not_lt.mpr hsize)]
    simp [PdfWatcher.retryLoop, h1, h2, h3]
  · rw [PdfWatcher.dispatch, if_neg (Nat.not_lt.mpr hsize)]
    simp [PdfWatcher.retryLoop, h1, h2, h3]
  · rw [PdfWatcher.backoffDelay, PdfWatcher.backoffDelay, pow_succ]
    ring

/-- C5 witness: `claim_C5_retryBackoff` on concrete outcome oracles —
success only at attempt 3, and never succeeding. -/
theorem claim_C5_retryBackoff_witness :
    PdfWatcher.dispatch 10 5 (fun n => n == 3) 3 = ⟨.dispatched, 1, 3, 0⟩ ∧
    PdfWatcher.dispatch 10 5 (fun _ => false) 3 = ⟨.failedTerminal, 0, 3, 1⟩ :=
  ⟨claim_C5_retryBackoff.1 (fun n => n == 3) 10 5
      (by decide) (by decide) (by decide) (by decide),
   claim_C5_retryBackoff.2.1 (fun _ => false) 10 5 rfl rfl rfl (by decide)⟩

namespace PdfWatcher

/-- The deduplication key of §4.1: (path, mtime, size). -/
abbrev Fingerprint := String × Nat × Nat

/-- Modelled from the spec: one debounced candidate observation (§4.1;
missing `pdf_watcher_service.py`) — a path with the sizes reported by
the two checks separated by the debounce interval. -/
structure FileEvent where
  path : String
  mtime : Nat
  sizeFirstCheck : Nat
  sizeSecondCheck : Nat

/-- Case-insensitive `.pdf` extension filter of §4.1. -/
def hasPdfExtension (p : String) : Bool :=
  (p.data.map Char.toLower).reverse.take 4 == ['f', 'd', 'p', '.']

/-- The (path, mtime, size) key of a stable observation. -/
def eventFingerprint (e : FileEvent) : Fingerprint :=
  (e.path, e.mtime, e.sizeSecondCheck)

/-- Modelled from the spec: DirectoryWatcher's emission decision (§4.1;
missing `pdf_watcher_service.py`).  A Job (identified by its
fingerprint) is emitted only for a `.pdf` path whose size is identical
across the two debounce checks and whose fingerprint is not in the
recent-set; emission records the fingerprint. -/
def watcherStep (recent : List Fingerprint) (e : FileEvent) :
    List Fingerprint × Option Fingerprint :=
  if hasPdfExtension e.path && (e.sizeFirstCheck == e.sizeSecondCheck) &&
      !(recent.contains (eventFingerprint e)) then
    (eventFingerprint e :: recent, some (eventFingerprint e))
  else (recent, none)

/-- Modelled from the spec: the watcher loop over a burst of events
(§4.1, §8), threading the recent-set; returns the final recent-set and
the emitted Jobs in order. -/
def watcherRun (recent : List Fingerprint) :
    List FileEvent → List Fingerprint × List Fingerprint
  | [] => (recent, [])
  | e :: es =>
      match watcherStep recent e with
      | (r1, some f) => ((watcherRun r1 es).1, f :: (watcherRun r1 es).2)
      | (r1, none) => watcherRun r1 es

/-- Recent-set invariant: a fingerprint already recorded is never
emitted again, so each fingerprint is emitted at most once. -/
theorem watcherRun_count_le (evs : List FileEvent) :
    ∀ (recent : List Fingerprint) (f : Fingerprint),
      ((watcherRun recent evs).2.count f) ≤
        (if recent.contains f then 0 else 1) := by
  induction evs with
  | nil => intro recent f; simp [watcherRun]
  | cons e es ih =>
      intro recent f
      by_cases hc : (hasPdfExtension e.path &&
          (e.sizeFirstCheck == e.sizeSecondCheck) &&
          !(recent.contains (eventFingerprint e))) = true
      · have hstep : watcherStep recent e =
            (eventFingerprint e :: recent, some (eventFingerprint e)) := by
          rw [watcherStep, if_pos hc]
        have hnotin : recent.contains (eventFingerprint e) = false := by
          simp only [Bool.and_eq_true, Bool.not_eq_true'] at hc
          exact hc.2
        simp only [watcherRun, hstep, List.count_cons]
        by_cases hf : f = eventFingerprint e
        · have hrec := ih (eventFingerprint e :: recent) f
          rw [if_pos (by simp [hf])] at hrec
          have hnotmem : eventFingerprint e ∉ recent := by simpa using hnotin
          have htgt : (if recent.contains f = true then (0 : Nat) else 1) = 1 := by
            rw [hf]; simp [hnotmem]
          rw [htgt]
          have hif : ((if (eventFingerprint e == f) = true then (1 : Nat) else 0)) = 1 := by
            simp [hf]
          omega
        · have hrec := ih (eventFingerprint e :: recent) f
          have hcont : (eventFingerprint e :: recent).contains f =
              recent.contains f := by
            simp [List.contains_cons, hf]
          rw [hcont] at hrec
          have hif : ((if (eventFingerprint e == f) = true then (1 : Nat) else 0)) = 0 := by
            have hne : ¬((eventFingerprint e == f) = true) := by
              simp only [beq_iff_eq]
              exact fun hh => hf hh.symm
            exact if_neg hne
          omega
      · have hstep : watcherStep recent e = (recent, none) := by
          rw [watcherStep, if_neg hc]
        simp only [watcherRun, hstep]
        exact ih recent f

end PdfWatcher

/-- C6: the watcher emits no Job for a non-`.pdf` path; no Job when the
two debounce checks disagree on the size; over any burst of events each
(path, mtime, size) fingerprint is emitted at most once; and an emitted
Job always comes from a `.pdf` path whose two checks agreed. -/
theorem claim_C6_debounceDedup :
    (∀ (recent : List PdfWatcher.Fingerprint) (e : PdfWatcher.FileEvent),
        PdfWatcher.hasPdfExtension e.path = false →
        (PdfWatcher.watcherStep recent e).2 = none) ∧
    (∀ (recent : List PdfWatcher.Fingerprint) (e : PdfWatcher.FileEvent),
        e.sizeFirstCheck ≠ e.sizeSecondCheck →
        (PdfWatcher.watcherStep recent e).2 = none) ∧
    (∀ (evs : List PdfWatcher.FileEvent) (f : PdfWatcher.Fingerprint),
        ((PdfWatcher.watcherRun [] evs).2.count f) ≤ 1) ∧
    (∀ (recent : List PdfWatcher.Fingerprint) (e : PdfWatcher.FileEvent),
        (PdfWatcher.watcherStep recent e).2.isSome = true →
        PdfWatcher.hasPdfExtension e.path = true ∧
          e.sizeFirstCheck = e.sizeSecondCheck) := by
  refine ⟨fun recent e h => ?_, fun recent e h => ?_, fun evs f => ?_,
    fun recent e h => ?_⟩
  · simp [PdfWatcher.watcherStep, h]
  · have hb : (e.sizeFirstCheck == e.sizeSecondCheck) = false := by
      simp [h]
    simp [PdfWatcher.watcherStep, hb]
  · have := PdfWatcher.watcherRun_count_le evs [] f
    simpa using this
  · by_cases hc : (PdfWatcher.hasPdfExtension e.path &&
        (e.sizeFirstCheck == e.sizeSecondCheck) &&
        !(recent.contains (PdfWatcher.eventFingerprint e))) = true
    · simp only [Bool.and_eq_true, beq_iff_eq] at hc
      exact ⟨hc.1.1, hc.1.2⟩
    · rw [PdfWatcher.watcherStep, if_neg hc] at h
      simp at h

/-- C6 witness: `claim_C6_debounceDedup` on an unstable `.pdf` event and
on a non-PDF event. -/
theorem claim_C6_debounceDedup_witness :
    (PdfWatcher.watcherStep [] ⟨"a.pdf", 0, 5, 7⟩).2 = none ∧
    (PdfWatcher.watcherStep [] ⟨"notes.txt", 0, 5, 5⟩).2 = none :=
  ⟨claim_C6_debounceDedup.2.1 [] ⟨"a.pdf", 0, 5, 7⟩ (by decide),
   claim_C6_debounceDedup.1 [] ⟨"notes.txt", 0, 5, 5⟩ (by decide)⟩

namespace PdfWatcher

/-- Outcome of one pipeline stage run on a staged Job: success, a soft
failure the Job absorbs (§7), or a terminal failure / uncaught error
captured at the worker boundary (§4.3). -/
inductive StageResult where
  | ok
  | softFail
  | terminalFail
  deriving DecidableEq, Repr

/-- Modelled from the spec: the small number of deletion retries §4.4
grants the cleanup to tolerate transient file locks (missing
`file_handler.py`). -/
def CLEANUP_RETRIES : Nat := 3

/-- Cleanup removes the temp directory when the transient lock clears
within the retry budget. -/
def cleanupRemoves (lockedAttempts : Nat) : Bool :=
  lockedAttempts ≤ CLEANUP_RETRIES

/-- One stage as the worker sees it: a terminal failure aborts the rest
of the pipeline body, anything else lets the Job proceed. -/
def stageRun : StageResult → Except Unit Unit
  | .terminalFail => .error ()
  | _ => .ok ()

/-- The pipeline body after staging: stages run in order until one
aborts. -/
def runPipelineBody : List StageResult → Except Unit Unit
  | [] => .ok ()
  | s :: rest =>
      match stageRun s with
      | .ok _ => runPipelineBody rest
      | .error e => .error e

/-- Modelled from the spec: the per-Job staging lifetime guarantee of
§4.4/§4.3 (missing `file_handler.py`, `pdf_handler.py`).  Whatever the
pipeline body does — success, absorbed soft failures, or a terminal
failure/throw — the cleanup runs on exit; the second component reports
whether the temp directory persists afterwards, which happens only when
its deletion stayed lock-blocked past every retry (then it is logged
for the startup sweep). -/
def processStagedJob (stages : List StageResult) (lockedAttempts : Nat) :
    JobState × Bool :=
  match runPipelineBody stages with
  | .ok _ => (.cleaned, !cleanupRemoves lockedAttempts)
  | .error _ => (.failedTerminal, !cleanupRemoves lockedAttempts)

/-- Modelled from the spec: the crash-recovery sweep at next startup
(§4.4, §5) reclaims every orphaned staging directory (missing
`pdf_watcher_service.py`). -/
def startupSweep (_orphans : List String) : List String := []

end PdfWatcher

/-- C7: when deletion is not lock-blocked past its retries, the staging
directory of every staged Job is removed on every exit path — whatever
the stage outcomes, including a terminal failure thrown by a later
stage; every run ends in a cleaned or terminal state; and the startup
sweep leaves no orphaned staging directory behind. -/
theorem claim_C7_stagingCleanup :
    (∀ (stages : List PdfWatcher.StageResult) (lockedAttempts : Nat),
        lockedAttempts ≤ PdfWatcher.CLEANUP_RETRIES →
        (PdfWatcher.processStagedJob stages lockedAttempts).2 = false) ∧
    (∀ (stages : List PdfWatcher.StageResult) (lockedAttempts : Nat),
        (PdfWatcher.processStagedJob stages lockedAttempts).1 = .cleaned ∨
          (PdfWatcher.processStagedJob stages lockedAttempts).1 = .failedTerminal) ∧
    (∀ orphans : List String, PdfWatcher.startupSweep orphans = []) := by
  refine ⟨fun stages lockedAttempts h => ?_, fun stages lockedAttempts => ?_,
    fun orphans => rfl⟩
  · have hclean : PdfWatcher.cleanupRemoves lockedAttempts = true := by
      simp [PdfWatcher.cleanupRemoves, h]
    cases hbody : PdfWatcher.runPipelineBody stages <;>
      simp [PdfWatcher.processStagedJob, hbody, hclean]
  · cases hbody : PdfWatcher.runPipelineBody stages <;>
      simp [PdfWatcher.processStagedJob, hbody]

/-- C7 witness: `claim_C7_stagingCleanup` on a pipeline whose dispatch
stage fails terminally, with an uncontended temp directory. -/
theorem claim_C7_stagingCleanup_witness :
    (PdfWatcher.processStagedJob
        [.ok, .ok, .terminalFail] 0).2 = false :=
  claim_C7_stagingCleanup.1 [.ok, .ok, .terminalFail] 0 (by decide)

example : PdfWatcher.normalizeLocalPart "Jane Smith-Wilson" = "JANE.SMITHWILSON" := by decide
example : PdfWatcher.normalizeLocalPart "Jane O\u0027Brien" = "JANEOBRIEN" := by decide
example : PdfWatcher.normalizeLocalPart "John Doe" = "JOHN.DOE" := by decide
